import Mathlib

/-!
Verification of the HP_Power_Lab_2.0 procurement pipeline against its
natural-language specification.

The development shallowly embeds the three source files:

* `run_pipeline.py`  — the pipeline orchestrator (module body);
* `backend/api.py`   — the Flask API: `load_data`, the read-only serving
  views, `upload_file` (CSV validation / ingestion) and `process_data`
  (pipeline trigger);
* `frontend/app_enhanced.py` — the Streamlit frontend's `load_data`.

Pure functions are translated to Lean functions; the module-level mutable
state (cached dataframes, files on disk) is passed explicitly.  Dataframe
cells are modelled by the inductive `Value` (string / rational number /
NaN / null); files on disk by `CsvFile` (absent / zero-byte / parsed
content).
-/

namespace HPPowerLab

/-! ## Pipeline orchestrator: `run_pipeline.py`

The module body of `run_pipeline.py` runs stage functions inside
`try/except` blocks.  Each `except` branch prints the exception, prints a
traceback and calls `sys.exit(1)`.  The script's docstring and its step
banners (`[STEP 1/3]`, `[STEP 2/3]`) announce a three-step pipeline
(standardization, cost analytics, anomaly detection), but the module body
contains exactly two stage invocations: `run_standardization()` and
`run_analytics_full()`.  We model a run as a function of the outcomes of
the two invoked stage functions. -/

inductive Stage where
  | standardization
  | analytics
  | anomalyDetection
  deriving DecidableEq

inductive StageOutcome where
  | ok
  | raised (msg : String)
  deriving DecidableEq

/-- Observable result of one execution of the `run_pipeline.py` module
body: which stage invocations ran, whether a diagnostic traceback was
printed, and the process exit code (0 on falling off the end of the
module, 1 via `sys.exit(1)`). -/
structure PipelineRun where
  executed : List Stage
  traceEmitted : Bool
  exitCode : Nat
  deriving DecidableEq

/-- Number of steps the script's own docstring and `[STEP k/3]` banners
announce. -/
def announcedTotalSteps : Nat := 3

/-- Embedding of the `run_pipeline.py` module body.  Stage 1
(`run_standardization`) always runs; on an exception the script prints the
traceback and exits 1.  Otherwise stage 2 (`run_analytics_full`) runs,
with the same exception handling; otherwise the script prints the success
banner and exits 0.  No further stage invocation exists in the module
body. -/
def runPipeline (stdOutcome anaOutcome : StageOutcome) : PipelineRun :=
  match stdOutcome with
  | .raised _ => ⟨[Stage.standardization], true, 1⟩
  | .ok =>
    match anaOutcome with
    | .raised _ => ⟨[Stage.standardization, Stage.analytics], true, 1⟩
    | .ok => ⟨[Stage.standardization, Stage.analytics], false, 0⟩

/-! ## Dataframe model shared by the API and frontend embeddings -/

/-- A dataframe cell: a string, a (rational) number, pandas' NaN
missing-value sentinel, or Python `None` (JSON `null`). -/
inductive Value where
  | str (s : String)
  | num (q : ℚ)
  | nan
  | null
  deriving DecidableEq

/-- One dataframe row, as the association list column-name ↦ cell. -/
abbrev Row : Type := List (String × Value)

/-- A dataframe: column names plus rows. -/
structure Df where
  cols : List String
  rows : List Row
  deriving DecidableEq

/-- Cell of row `r` in column `c` (in the embedding every row carries an
entry for each dataframe column). -/
def getField (r : Row) (c : String) : Value :=
  match r.find? (fun p => p.1 == c) with
  | some p => p.2
  | none => Value.nan

/-- Embeds pandas `row.get(c, d)`: the cell if the column exists,
otherwise the default. -/
def getFieldD (r : Row) (c : String) (d : Value) : Value :=
  match r.find? (fun p => p.1 == c) with
  | some p => p.2
  | none => d

/-- A file on disk as seen by `pd.read_csv`: missing
(`FileNotFoundError`), zero-byte (`pd.errors.EmptyDataError`), or parsed
content. -/
inductive CsvFile where
  | absent
  | emptyFile
  | content (df : Df)
  deriving DecidableEq

inductive ReadErr where
  | fileNotFound
  | emptyData
  deriving DecidableEq

/-- `pd.read_csv` on a `CsvFile`. -/
def readCsv (f : CsvFile) : Except ReadErr Df :=
  match f with
  | .absent => .error ReadErr.fileNotFound
  | .emptyFile => .error ReadErr.emptyData
  | .content df => .ok df

/-- True when `pd.read_csv` on the file raises. -/
def fileUnreadable (f : CsvFile) : Bool :=
  match f with
  | .content _ => false
  | _ => true

/-! ## Upload / ingestion: `upload_file` in `backend/api.py`

After the request-level guards (file present, `.csv` extension) the
handler saves the upload, parses it with `pd.read_csv`, and validates the
columns.  If any required column is missing it deletes the saved upload
and returns a 400 error naming the missing columns; the raw-data file is
untouched.  Otherwise, if a raw-data file exists it is first copied to a
timestamped backup, and only then is the upload copied over the raw-data
file.  The state we track is the raw-data file and the set of backup
copies. -/

def requiredColumns : List String :=
  ["po_id", "item_description", "unit_price", "quantity",
   "unit", "po_date", "region", "department", "supplier"]

/-- Columns of `requiredColumns` absent from the uploaded dataframe
(`[col for col in required_columns if col not in df.columns]`). -/
def missingColumns (df : Df) : List String :=
  requiredColumns.filter (fun c => !(df.cols.contains c))

/-- Embedding of Python's `', '.join(l)`. -/
def joinComma : List String → String
  | [] => ""
  | [a] => a
  | a :: b :: rest => a ++ ", " ++ joinComma (b :: rest)

/-- The 400-response error string built by `upload_file` when columns are
missing. -/
def uploadErrorMessage (missing : List String) : String :=
  "Missing required columns: " ++ joinComma missing

/-- Server-side file state touched by `upload_file`: the raw-data file
`data/raw/purchase_orders_raw.csv` (if it exists) and the backup copies
`purchase_orders_raw_backup_<timestamp>.csv` made so far. -/
structure ServerFiles where
  rawFile : Option Df
  backups : List Df
  deriving DecidableEq

/-- Response of the validation/ingestion part of `upload_file`. -/
inductive UploadResponse where
  | missingColumnsError (message : String) (missing : List String)
      (required : List String)
  | uploaded (rowCount : Nat) (columns : List String)
  deriving DecidableEq

/-- Embedding of `upload_file` (backend/api.py, lines 227–255), from the
point where the uploaded CSV has been parsed into `df`.  Returns the new
file state and the JSON response. -/
def uploadFile (st : ServerFiles) (df : Df) : ServerFiles × UploadResponse :=
  let missing := missingColumns df
  if missing = [] then
    let newBackups :=
      match st.rawFile with
      | some f => st.backups ++ [f]
      | none => st.backups
    (⟨some df, newBackups⟩, UploadResponse.uploaded df.rows.length df.cols)
  else
    (st, UploadResponse.missingColumnsError (uploadErrorMessage missing)
      missing requiredColumns)

/-! ## Serving: `load_data` and the read-only views in `backend/api.py` -/

/-- The four files the backend `load_data` reads. -/
structure BackendFiles where
  standardizedFile : CsvFile
  analyticsFile : CsvFile
  anomaliesFile : CsvFile
  rawFile : CsvFile
  deriving DecidableEq

/-- Raw columns merged into the standardized dataframe besides the
`po_id` join key: `raw_data[['po_id', 'unit_price', 'supplier', 'region',
'quantity', 'unit', 'po_date']]`. -/
def rawJoinCols : List String :=
  ["unit_price", "supplier", "region", "quantity", "unit", "po_date"]

/-- Column renaming applied after the merge
(`supplier` ↦ `supplier_name`, `confidence_score` ↦
`standardization_confidence`). -/
def renameCol (c : String) : String :=
  if c = "supplier" then "supplier_name"
  else if c = "confidence_score" then "standardization_confidence"
  else c

def renameRow (r : Row) : Row :=
  r.map (fun p => (renameCol p.1, p.2))

/-- Left-join one standardized row with the raw dataframe on `po_id`
(raw `po_id` is unique per the data model; unmatched rows get NaN). -/
def mergeRow (r : Row) (rawRows : List Row) : Row :=
  match rawRows.find? (fun q => getField q "po_id" == getField r "po_id") with
  | some q => r ++ rawJoinCols.map (fun c => (c, getField q c))
  | none => r ++ rawJoinCols.map (fun c => (c, Value.nan))

/-- `standardized.merge(raw_data[...], on='po_id', how='left')` followed
by the column renames. -/
def mergeStandardized (std raw : Df) : Df :=
  ⟨(std.cols ++ rawJoinCols).map renameCol,
   std.rows.map (fun r => renameRow (mergeRow r raw.rows))⟩

/-- The three in-memory dataframes served by the API when loading
succeeded: the merged/renamed standardized dataframe, the analytics
dataframe and the anomalies dataframe. -/
structure ServedData where
  standardized : Df
  analytics : Df
  anomalies : Df
  deriving DecidableEq

/-- Embedding of the backend `load_data` (backend/api.py, lines 35–68):
reads the three processed files and the raw file inside one `try`; any
read failure yields `(None, None, None)` (modelled as `none`), otherwise
the merged triple. -/
def loadData (fs : BackendFiles) : Option ServedData :=
  match readCsv fs.standardizedFile, readCsv fs.analyticsFile,
        readCsv fs.anomaliesFile, readCsv fs.rawFile with
  | .ok std, .ok ana, .ok anom, .ok raw =>
    some ⟨mergeStandardized std raw, ana, anom⟩
  | _, _, _, _ => none

/-! ### Column statistics helpers (pandas semantics: NaN is skipped) -/

/-- Numeric entries of a column. -/
def numericVals (vs : List Value) : List ℚ :=
  vs.filterMap (fun v => match v with | .num q => some q | _ => none)

/-- Pandas `Series.mean()`: mean of the numeric entries, NaN when there
are none. -/
def colMean (vs : List Value) : Value :=
  match numericVals vs with
  | [] => Value.nan
  | ns => Value.num (ns.sum / ns.length)

/-- Pandas `min` aggregation over a column. -/
def colMin (vs : List Value) : Value :=
  match (numericVals vs).min? with
  | some q => Value.num q
  | none => Value.nan

/-- Pandas `max` aggregation over a column. -/
def colMax (vs : List Value) : Value :=
  match (numericVals vs).max? with
  | some q => Value.num q
  | none => Value.nan

/-- Pandas `count` aggregation: number of non-NaN entries. -/
def colCount (vs : List Value) : Nat :=
  (vs.filter (fun v => v ≠ Value.nan)).length

/-- Pandas `Series.nunique()`: distinct non-NaN entries. -/
def colNunique (vs : List Value) : Nat :=
  ((vs.filter (fun v => v ≠ Value.nan)).dedup).length

/-- Pandas `Series.value_counts()` as key/count pairs (the embedding
keeps first-occurrence order; pandas orders by descending count, which no
verified property depends on). -/
def valueCounts (vs : List Value) : List (Value × Nat) :=
  ((vs.filter (fun v => v ≠ Value.nan)).dedup).map
    (fun k => (k, (vs.filter (fun v => v == k)).length))

/-- The values of column `c`, row by row. -/
def colValues (df : Df) (c : String) : List Value :=
  df.rows.map (fun r => getField r c)

/-! ### `.replace({np.nan: None})` -/

/-- Cell-wise effect of `.replace({np.nan: None})`. -/
def replaceNanWithNull (v : Value) : Value :=
  match v with
  | .nan => Value.null
  | v => v

def replaceRow (r : Row) : Row :=
  r.map (fun p => (p.1, replaceNanWithNull p.2))

/-! ### `/api/items`: search + pagination (`get_items`)

The search filter calls `.str.contains(search, case=False, na=False)`,
whose default `regex=True` makes pandas compile `search` as a regular
expression with `re.IGNORECASE` and test each string cell with
`re.search`.  The regular-expression engine is Python library code, not
repository code, so the embedding takes its compile step as a parameter
of type `String → Option (String → Bool)`: `compile pat = none` when
`re.compile(pat, re.IGNORECASE)` raises `re.error` (malformed pattern),
otherwise `some m` where `m s` holds exactly when the compiled pattern
is found somewhere within `s`.  A raised `re.error` escapes the Flask
handler, which answers 500 Internal Server Error. -/

/-- `.str.contains(search, case=False, na=False)` on one cell, given
the compiled pattern's matcher `m`: NaN and non-string cells give
`False` (`na=False`), string cells are searched with the compiled
pattern. -/
def cellMatches (m : String → Bool) (v : Value) : Bool :=
  match v with
  | .str s => m s
  | _ => false

/-- The row predicate of the `get_items` search filter:
`canonical_item_name` or `supplier_name` matches the compiled
pattern. -/
def rowMatches (m : String → Bool) (r : Row) : Bool :=
  cellMatches m (getField r "canonical_item_name") ||
  cellMatches m (getField r "supplier_name")

/-- The search-filter stage of `get_items` (backend/api.py, lines
110–112): `if search:` skips filtering on the empty search string;
otherwise the pattern is compiled — a malformed pattern raises
`re.error`, which escapes the handler as a 500 Internal Server Error —
and the compiled matcher filters the rows. -/
def searchFilter (compile : String → Option (String → Bool))
    (search : String) (rows : List Row) : Except String (List Row) :=
  if search = "" then .ok rows
  else
    match compile search with
    | none => .error "Internal Server Error"
    | some m => .ok (rows.filter (rowMatches m))

/-- JSON payload of `/api/items`. -/
structure ItemsResponse where
  items : List Row
  total : Nat
  page : Nat
  perPage : Nat
  pages : Nat
  deriving DecidableEq

/-- Pagination stage of `get_items` (backend/api.py, lines 114–127) on
the filtered rows: `iloc[start:end]` with
`start = (page - 1) * per_page`, then `.replace({np.nan: None})`, plus
the `total`/`page`/`per_page`/`pages` metadata with
`pages = (total + per_page - 1) // per_page`. -/
def paginateItems (filtered : List Row) (page perPage : Nat) :
    ItemsResponse :=
  let total := filtered.length
  let start := (page - 1) * perPage
  ⟨((filtered.drop start).take perPage).map replaceRow,
   total, page, perPage, (total + perPage - 1) / perPage⟩

/-- Embedding of `get_items` (backend/api.py, lines 97–127) on the
cached standardized rows: the search-filter stage followed by the
pagination stage, a `re.error` from pattern compilation escaping as the
500 Internal Server Error outcome. -/
def getItems (compile : String → Option (String → Bool))
    (rows : List Row) (page perPage : Nat) (search : String) :
    Except String ItemsResponse :=
  match searchFilter compile search rows with
  | .error e => .error e
  | .ok filtered => .ok (paginateItems filtered page perPage)

/-! ### The read-only views

Each Flask view first checks the module-level cached dataframes for
`None` and returns the 500 response `{"error": "Data not loaded"}` in
that case.  `load_data` (and the reload in `process_data`) only ever set
the three cached dataframes together — either all three from a successful
load or all `None` — so the cache is modelled as `Option ServedData`.
Views are modelled as `Except` of the error string. -/

/-- `/api/dashboard/stats` payload. -/
structure DashboardStats where
  totalItems : Nat
  totalSuppliers : Nat
  avgUnitPrice : Value
  avgConfidence : Value
  itemsWithAnomalies : Nat
  totalCategories : Nat
  deriving DecidableEq

/-- Embedding of `get_dashboard_stats` (backend/api.py, lines 79–94). -/
def dashboardStats (d : Option ServedData) : Except String DashboardStats :=
  match d with
  | none => .error "Data not loaded"
  | some sd =>
    .ok ⟨sd.standardized.rows.length,
         colNunique (colValues sd.standardized "supplier_name"),
         colMean (colValues sd.standardized "unit_price"),
         colMean (colValues sd.standardized "standardization_confidence"),
         sd.anomalies.rows.length,
         if sd.standardized.cols.contains "category" then
           colNunique (colValues sd.standardized "category")
         else 0⟩

/-- Embedding of `get_items` as a view on the cache: the `None` check
precedes any search handling, so the not-loaded response is returned
regardless of the regex engine's behaviour. -/
def itemsView (compile : String → Option (String → Bool))
    (d : Option ServedData) (page perPage : Nat)
    (search : String) : Except String ItemsResponse :=
  match d with
  | none => .error "Data not loaded"
  | some sd => getItems compile sd.standardized.rows page perPage search

/-- Embedding of `get_analytics` (backend/api.py, lines 130–137):
`analytics_df.replace({np.nan: None}).to_dict('records')`. -/
def analyticsView (d : Option ServedData) : Except String (List Row) :=
  match d with
  | none => .error "Data not loaded"
  | some sd => .ok (sd.analytics.rows.map replaceRow)

/-- Embedding of `get_anomalies` (backend/api.py, lines 140–147):
`anomalies_df.replace({np.nan: None}).to_dict('records')`. -/
def anomaliesView (d : Option ServedData) : Except String (List Row) :=
  match d with
  | none => .error "Data not loaded"
  | some sd => .ok (sd.anomalies.rows.map replaceRow)

/-- One `/api/price-trends` entry. -/
structure TrendEntry where
  itemName : Value
  trendDirection : Value
  avgPrice : Value
  minPrice : Value
  maxPrice : Value
  priceVariance : Value
  deriving DecidableEq

/-- Embedding of `get_price_trends` (backend/api.py, lines 150–169):
first 10 analytics rows, fields via `row.get(col, default)`. -/
def priceTrendsView (d : Option ServedData) :
    Except String (List TrendEntry) :=
  match d with
  | none => .error "Data not loaded"
  | some sd =>
    .ok ((sd.analytics.rows.take 10).map (fun r =>
      ⟨getFieldD r "canonical_item_name" (Value.str "Unknown"),
       getFieldD r "trend_direction" (Value.str "stable"),
       getFieldD r "avg_price" (Value.num 0),
       getFieldD r "min_price" (Value.num 0),
       getFieldD r "max_price" (Value.num 0),
       getFieldD r "price_std" (Value.num 0)⟩))

/-- One `/api/suppliers` entry. -/
structure SupplierStat where
  supplier : Value
  avgPrice : Value
  minPrice : Value
  maxPrice : Value
  itemCount : Nat
  avgConfidence : Value
  deriving DecidableEq

/-- Group keys of `standardized_df.groupby('supplier_name')` (pandas
drops NaN keys; the embedding keeps first-occurrence order, pandas sorts
keys — no verified property depends on the order). -/
def supplierGroupKeys (rows : List Row) : List Value :=
  (((rows.map (fun r => getField r "supplier_name")).filter
    (fun v => v ≠ Value.nan)).dedup)

/-- Aggregates of one supplier group (`mean`/`min`/`max`/`count` of
`unit_price`, `mean` of `standardization_confidence`). -/
def supplierStat (rows : List Row) (key : Value) : SupplierStat :=
  let g := rows.filter (fun r => getField r "supplier_name" == key)
  let prices := g.map (fun r => getField r "unit_price")
  ⟨key, colMean prices, colMin prices, colMax prices, colCount prices,
   colMean (g.map (fun r => getField r "standardization_confidence"))⟩

/-- Cell-wise `.replace({np.nan: None})` on a supplier entry. -/
def replaceSupplierStat (s : SupplierStat) : SupplierStat :=
  ⟨replaceNanWithNull s.supplier, replaceNanWithNull s.avgPrice,
   replaceNanWithNull s.minPrice, replaceNanWithNull s.maxPrice,
   s.itemCount, replaceNanWithNull s.avgConfidence⟩

/-- Embedding of `get_suppliers` (backend/api.py, lines 172–186). -/
def suppliersView (d : Option ServedData) :
    Except String (List SupplierStat) :=
  match d with
  | none => .error "Data not loaded"
  | some sd =>
    .ok ((((supplierGroupKeys sd.standardized.rows).map
      (supplierStat sd.standardized.rows)).map replaceSupplierStat).take 10)

/-- Embedding of `get_categories` (backend/api.py, lines 189–196):
errors when the cache is `None` or the `category` column is absent. -/
def categoriesView (d : Option ServedData) :
    Except String (List (Value × Nat)) :=
  match d with
  | none => .error "Data not loaded or categories not available"
  | some sd =>
    if sd.standardized.cols.contains "category" then
      .ok (valueCounts (colValues sd.standardized "category"))
    else
      .error "Data not loaded or categories not available"

/-! ## Pipeline trigger: `process_data` in `backend/api.py`

`process_data` runs `run_pipeline.py` via `subprocess.run(...,
timeout=300)`.  The subprocess either completes with a return code,
stdout and stderr, or exceeds the timeout
(`subprocess.TimeoutExpired`). -/

/-- Outcome of the blocking `subprocess.run` call. -/
inductive PipelineResult where
  | completed (returncode : Nat) (stdout stderr : String)
  | timedOut
  deriving DecidableEq

/-- The `timeout=300` argument of `subprocess.run` (seconds). -/
def processTimeoutSeconds : Nat := 300

/-- JSON response of `/api/process`: the HTTP status plus the optional
fields each branch of `process_data` fills in. -/
structure ProcessResponse where
  status : Nat
  message : Option String
  errorMessage : Option String
  output : Option String
  errorDetails : Option String
  standardizedItems : Option Nat
  analyticsRecords : Option Nat
  anomaliesFound : Option Nat
  deriving DecidableEq

/-- Row count of a cached dataframe, `len(df) if df is not None else 0`. -/
def cachedLen (d : Option ServedData) (pick : ServedData → Df) : Nat :=
  match d with
  | some sd => (pick sd).rows.length
  | none => 0

/-- Embedding of `process_data` (backend/api.py, lines 266–306).  Inputs:
the files on disk, the current cached dataframes, and the subprocess
outcome.  Returns the new cache and the response.  On return code 0 the
cache is reloaded via `load_data()` and a 200 response carries the
subprocess stdout and the new row counts; on a non-zero return code the
cache is untouched and a 500 response carries stdout (`output`) and
stderr (`error_details`); on `TimeoutExpired` the cache is untouched and
a 500 response carries only the timeout error string. -/
def processData (fs : BackendFiles) (cache : Option ServedData)
    (res : PipelineResult) : Option ServedData × ProcessResponse :=
  match res with
  | .timedOut =>
    (cache, ⟨500, none, some "Processing timeout (max 5 minutes)",
             none, none, none, none, none⟩)
  | .completed rc out err =>
    if rc = 0 then
      let newCache := loadData fs
      (newCache,
       ⟨200, some "Data processed successfully", none, some out, none,
        some (cachedLen newCache ServedData.standardized),
        some (cachedLen newCache ServedData.analytics),
        some (cachedLen newCache ServedData.anomalies)⟩)
    else
      (cache, ⟨500, none, some "Processing failed", some out, some err,
               none, none, none⟩)

/-! ## Frontend data loader: `load_data` in `frontend/app_enhanced.py`

Reads the raw file and the three processed files.  The anomalies read is
wrapped in an inner `try` that catches `pd.errors.EmptyDataError` and
`FileNotFoundError` and substitutes an empty six-column dataframe; any
other failure (raw, standardized or analytics unreadable) escapes to the
outer handler, which reports the error and stops the app. -/

/-- The four files the frontend reads. -/
structure FrontendFiles where
  raw : CsvFile
  standardized : CsvFile
  analytics : CsvFile
  anomalies : CsvFile
  deriving DecidableEq

/-- Columns of the substituted empty anomalies dataframe. -/
def anomalyFallbackCols : List String :=
  ["po_id", "item_code", "unit_price", "expected_price",
   "anomaly_flag", "anomaly_reason"]

/-- Embedding of the frontend `load_data`
(frontend/app_enhanced.py, lines 123–145). -/
def frontendLoadData (fs : FrontendFiles) :
    Except ReadErr (Df × Df × Df × Df) :=
  match readCsv fs.raw with
  | .error e => .error e
  | .ok rawDf =>
    match readCsv fs.standardized with
    | .error e => .error e
    | .ok stdDf =>
      match readCsv fs.analytics with
      | .error e => .error e
      | .ok anaDf =>
        let anomDf :=
          match readCsv fs.anomalies with
          | .ok a => a
          | .error ReadErr.emptyData => ⟨anomalyFallbackCols, []⟩
          | .error ReadErr.fileNotFound => ⟨anomalyFallbackCols, []⟩
        .ok (rawDf, stdDf, anaDf, anomDf)

/-! ## Concrete demonstration data (used by the witness theorems) -/

/-- An upload missing exactly the `supplier` column (spec scenario 3). -/
def demoUploadDf : Df :=
  ⟨["po_id", "item_description", "unit_price", "quantity",
    "unit", "po_date", "region", "department"], []⟩

/-- A raw-data file with all required columns and one row. -/
def demoRawDf : Df :=
  ⟨requiredColumns, [[("po_id", Value.str "PO1")]]⟩

/-- Server file state with an existing raw-data file and no backups. -/
def demoServerFiles : ServerFiles := ⟨some demoRawDf, []⟩

/-- A complete upload used to exercise the re-upload/backup path. -/
def demoFullUploadDf : Df :=
  ⟨requiredColumns, [[("po_id", Value.str "PO2")]]⟩

/-- Backend file state with no file on disk. -/
def demoBackendFilesEmpty : BackendFiles :=
  ⟨CsvFile.absent, CsvFile.absent, CsvFile.absent, CsvFile.absent⟩

/-- Backend file state where only `standardized_items.csv` is missing. -/
def demoBackendFilesPartial : BackendFiles :=
  ⟨CsvFile.absent, CsvFile.content demoRawDf, CsvFile.content demoRawDf,
   CsvFile.content demoRawDf⟩

/-- A two-column dataframe whose single row has a NaN cell. -/
def demoNanDf : Df :=
  ⟨["po_id", "unit_price"],
   [[("po_id", Value.str "PO1"), ("unit_price", Value.nan)]]⟩

/-- A served-data cache built from `demoNanDf`. -/
def demoServedData : ServedData := ⟨demoNanDf, demoNanDf, demoNanDf⟩

/-- Characters that are metacharacters of Python regular expressions. -/
def reMetachars : List Char :=
  ['(', ')', '[', ']', '{', '}', '?', '*', '+', '|', '^', '$', '\\', '.']

/-- A concrete regex-engine instance used by the witness and
counterexample theorems, reflecting two documented behaviours of Python
`re` on exactly the patterns those theorems evaluate: `re.compile`
raises `re.error` on the pattern "(" (missing ), unterminated
subpattern) — this instance conservatively refuses every pattern
containing a regex metacharacter — and on a pattern free of
metacharacters, `re.search` with `re.IGNORECASE` coincides with
case-insensitive substring containment. -/
def demoReCompile (pat : String) : Option (String → Bool) :=
  if pat.data.all (fun c => !(reMetachars.contains c)) then
    some (fun s => decide (pat.toLower.data <:+: s.toLower.data))
  else
    none

/-! ## Claim theorems -/

/-- C1: the claim says the orchestrator executes the three stages
STANDARDIZATION, ANALYTICS, ANOMALY_DETECTION in order, so a successful
run has performed all three.  The module body of `run_pipeline.py`
contradicts its own docstring and `[STEP k/3]` banners: a fully
successful run exits 0 after exactly the two stage invocations
standardization and analytics, and no anomaly-detection stage is ever
invoked. -/
theorem c1_successful_run_invokes_only_two_stages :
    (runPipeline StageOutcome.ok StageOutcome.ok).exitCode = 0 ∧
    (runPipeline StageOutcome.ok StageOutcome.ok).executed =
      [Stage.standardization, Stage.analytics] ∧
    Stage.anomalyDetection ∉
      (runPipeline StageOutcome.ok StageOutcome.ok).executed ∧
    (runPipeline StageOutcome.ok StageOutcome.ok).executed.length ≠
      announcedTotalSteps := by
  decide

/-- C2: if any invoked stage raises, the run aborts: the exit code is
non-zero, a diagnostic trace is emitted, and no stage after the failing
one is executed (a standardization failure leaves analytics unexecuted;
an analytics failure is the last possible stage). -/
theorem c2_stage_failure_aborts (s a : StageOutcome)
    (h : s ≠ StageOutcome.ok ∨ a ≠ StageOutcome.ok) :
    (runPipeline s a).exitCode ≠ 0 ∧
    (runPipeline s a).traceEmitted = true ∧
    (s ≠ StageOutcome.ok →
      (runPipeline s a).executed = [Stage.standardization]) ∧
    (s = StageOutcome.ok →
      (runPipeline s a).executed = [Stage.standardization, Stage.analytics]) := by
  cases s with
  | raised m => simp [runPipeline]
  | ok =>
    cases a with
    | raised m => simp [runPipeline]
    | ok =>
      rcases h with h | h <;> exact absurd rfl h

/-- Every string of `l` occurs as a contiguous substring of
`joinComma l`. -/
theorem data_infix_joinComma (c : String) (l : List String) (h : c ∈ l) :
    c.data <:+: (joinComma l).data := by
  induction l with
  | nil => cases h
  | cons a rest ih =>
    cases rest with
    | nil =>
      have hc : c = a := by
        cases h with
        | head => rfl
        | tail _ hm => cases hm
      subst hc
      exact ⟨[], [], by simp [joinComma]⟩
    | cons b t =>
      cases h with
      | head =>
        exact ⟨[], (", " ++ joinComma (b :: t)).data,
          by simp [joinComma, String.data_append]⟩
      | tail _ hm =>
        obtain ⟨s, u, hsu⟩ := ih hm
        exact ⟨(a ++ ", ").data ++ s, u,
          by simp [joinComma, String.data_append, ← hsu]⟩

/-- Every missing column's name occurs as a substring of the upload
error message. -/
theorem data_infix_uploadErrorMessage (c : String) (missing : List String)
    (h : c ∈ missing) : c.data <:+: (uploadErrorMessage missing).data := by
  obtain ⟨s, u, hsu⟩ := data_infix_joinComma c missing h
  exact ⟨"Missing required columns: ".data ++ s, u,
    by simp [uploadErrorMessage, String.data_append, ← hsu]⟩

/-- C3: an upload missing required raw-order columns is rejected: the
server file state (raw-data file and backups) is unchanged, the response
is the missing-columns error whose message names every missing column
(each missing column is in the reported list and occurs as a substring
of the error message), and conversely the file state changes only when
no required column is missing. -/
theorem c3_upload_rejects_missing_columns (st : ServerFiles) (df : Df) :
    (missingColumns df ≠ [] →
      (uploadFile st df).1 = st ∧
      (uploadFile st df).2 = UploadResponse.missingColumnsError
        (uploadErrorMessage (missingColumns df)) (missingColumns df)
        requiredColumns ∧
      (∀ c ∈ requiredColumns, df.cols.contains c = false →
        c ∈ missingColumns df ∧
        c.data <:+: (uploadErrorMessage (missingColumns df)).data)) ∧
    ((uploadFile st df).1 ≠ st → missingColumns df = []) := by
  by_cases hm : missingColumns df = []
  · refine ⟨fun hx => absurd hm hx, fun _ => hm⟩
  · constructor
    · intro _
      refine ⟨by simp [uploadFile, hm], by simp [uploadFile, hm], ?_⟩
      intro c hc hnc
      have hmem : c ∈ missingColumns df := by
        simp only [missingColumns, List.mem_filter]
        exact ⟨hc, by simpa using hnc⟩
      exact ⟨hmem, data_infix_uploadErrorMessage c _ hmem⟩
    · intro hchanged
      exact absurd (by simp [uploadFile, hm]) hchanged

theorem c3_witness :
    missingColumns demoUploadDf = ["supplier"] ∧
    (uploadFile demoServerFiles demoUploadDf).1 = demoServerFiles ∧
    "supplier" ∈ missingColumns demoUploadDf ∧
    String.data "supplier" <:+:
      (uploadErrorMessage (missingColumns demoUploadDf)).data := by
  have h := (c3_upload_rejects_missing_columns demoServerFiles
    demoUploadDf).1 (by decide)
  exact ⟨by decide, h.1, (h.2.2 "supplier" (by decide) (by decide)).1,
    (h.2.2 "supplier" (by decide) (by decide)).2⟩

/-- C4: a valid upload (no missing columns) arriving while a raw-data
file exists first copies the existing raw-data file into the backups and
only then replaces it with the uploaded dataframe, so the prior version
survives in the backups. -/
theorem c4_reupload_backs_up_prior_raw (st : ServerFiles) (df f : Df)
    (h1 : missingColumns df = []) (h2 : st.rawFile = some f) :
    (uploadFile st df).1.rawFile = some df ∧
    (uploadFile st df).1.backups = st.backups ++ [f] ∧
    f ∈ (uploadFile st df).1.backups := by
  refine ⟨by simp [uploadFile, h1, h2], by simp [uploadFile, h1, h2], ?_⟩
  simp [uploadFile, h1, h2]

theorem c4_witness :
    (uploadFile demoServerFiles demoFullUploadDf).1.rawFile =
      some demoFullUploadDf ∧
    (uploadFile demoServerFiles demoFullUploadDf).1.backups =
      [] ++ [demoRawDf] ∧
    demoRawDf ∈ (uploadFile demoServerFiles demoFullUploadDf).1.backups := by
  exact c4_reupload_backs_up_prior_raw demoServerFiles demoFullUploadDf
    demoRawDf (by decide) rfl

/-- Witness for C2 at a concrete failing standardization stage. -/
theorem c2_witness :
    (runPipeline (StageOutcome.raised "boom") StageOutcome.ok).exitCode ≠ 0 ∧
    (runPipeline (StageOutcome.raised "boom") StageOutcome.ok).traceEmitted
      = true ∧
    (runPipeline (StageOutcome.raised "boom") StageOutcome.ok).executed =
      [Stage.standardization] := by
  have h := c2_stage_failure_aborts (StageOutcome.raised "boom")
    StageOutcome.ok (Or.inl (by decide))
  exact ⟨h.1, h.2.1, h.2.2.1 (by decide)⟩

/-- C5 counterexample: the claim says stdout, stderr and the exit code
are all surfaced to the caller.  On a successful run (exit code 0) with
non-empty stderr, `process_data` returns a 200 response whose
`error_details` field does not exist (modelled as `none`): stderr is not
surfaced. -/
theorem c5_counterexample :
    (processData demoBackendFilesEmpty none
      (PipelineResult.completed 0 "pipeline output" "deprecation warning")
      ).2.errorDetails = none ∧
    "deprecation warning" ≠ "" := by
  exact ⟨rfl, by decide⟩

/-- C5 (amended): `process_data` runs the pipeline as a blocking
subprocess with a 300-second timeout; it reloads the served in-memory
data from the output files exactly when the exit code is 0, in which
case a 200 response carries the subprocess stdout; on a non-zero exit
the cached dataframes are left unchanged and a 500 response carries
both stdout and stderr. -/
theorem c5_trigger_reload_iff_exit_zero (fs : BackendFiles)
    (cache : Option ServedData) (rc : Nat) (out err : String) :
    processTimeoutSeconds = 300 ∧
    (rc = 0 →
      (processData fs cache (PipelineResult.completed rc out err)).1 =
        loadData fs ∧
      (processData fs cache (PipelineResult.completed rc out err)).2.status
        = 200 ∧
      (processData fs cache (PipelineResult.completed rc out err)).2.output
        = some out ∧
      (processData fs cache (PipelineResult.completed rc out err)
        ).2.errorMessage = none) ∧
    (rc ≠ 0 →
      (processData fs cache (PipelineResult.completed rc out err)).1 =
        cache ∧
      (processData fs cache (PipelineResult.completed rc out err)).2.status
        = 500 ∧
      (processData fs cache (PipelineResult.completed rc out err)
        ).2.errorMessage = some "Processing failed" ∧
      (processData fs cache (PipelineResult.completed rc out err)).2.output
        = some out ∧
      (processData fs cache (PipelineResult.completed rc out err)
        ).2.errorDetails = some err) := by
  refine ⟨rfl, ?_, ?_⟩ <;> intro h <;> simp [processData, h]

/-- Witness for C5 at concrete subprocess outcomes: a failing run leaves
the cache untouched and surfaces stdout and stderr; a successful run
reloads the cache from disk. -/
theorem c5_witness :
    (processData demoBackendFilesEmpty (some demoServedData)
      (PipelineResult.completed 1 "out text" "err text")).1 =
      some demoServedData ∧
    (processData demoBackendFilesEmpty (some demoServedData)
      (PipelineResult.completed 1 "out text" "err text")).2.errorMessage =
      some "Processing failed" ∧
    (processData demoBackendFilesEmpty (some demoServedData)
      (PipelineResult.completed 1 "out text" "err text")).2.errorDetails =
      some "err text" ∧
    (processData demoBackendFilesEmpty (some demoServedData)
      (PipelineResult.completed 0 "out text" "")).1 =
      loadData demoBackendFilesEmpty := by
  have h1 := (c5_trigger_reload_iff_exit_zero demoBackendFilesEmpty
    (some demoServedData) 1 "out text" "err text").2.2 (by decide)
  have h0 := (c5_trigger_reload_iff_exit_zero demoBackendFilesEmpty
    (some demoServedData) 0 "out text" "").2.1 rfl
  exact ⟨h1.1, h1.2.2.1, h1.2.2.2.2, h0.1⟩

/-- C6: a subprocess timeout produces the distinct error string
"Processing timeout (max 5 minutes)", different from the stage-failure
response's "Processing failed", so the caller can distinguish the two;
the timeout also leaves the cached dataframes unchanged. -/
theorem c6_timeout_distinct_condition (fs fs2 : BackendFiles)
    (cache cache2 : Option ServedData) (rc : Nat) (out err : String)
    (h : rc ≠ 0) :
    (processData fs cache PipelineResult.timedOut).2.errorMessage =
      some "Processing timeout (max 5 minutes)" ∧
    (processData fs2 cache2 (PipelineResult.completed rc out err)
      ).2.errorMessage = some "Processing failed" ∧
    (processData fs cache PipelineResult.timedOut).2.errorMessage ≠
      (processData fs2 cache2 (PipelineResult.completed rc out err)
        ).2.errorMessage ∧
    (processData fs cache PipelineResult.timedOut).1 = cache := by
  have ht : (processData fs cache PipelineResult.timedOut).2.errorMessage =
      some "Processing timeout (max 5 minutes)" := rfl
  have hf : (processData fs2 cache2 (PipelineResult.completed rc out err)
      ).2.errorMessage = some "Processing failed" := by
    simp [processData, h]
  refine ⟨ht, hf, ?_, rfl⟩
  rw [ht, hf]
  decide

/-- Witness for C6 at a concrete failing exit code. -/
theorem c6_witness :
    (processData demoBackendFilesEmpty none PipelineResult.timedOut
      ).2.errorMessage = some "Processing timeout (max 5 minutes)" ∧
    (processData demoBackendFilesEmpty none
      (PipelineResult.completed 1 "o" "e")).2.errorMessage =
      some "Processing failed" ∧
    (processData demoBackendFilesEmpty none PipelineResult.timedOut
      ).2.errorMessage ≠
      (processData demoBackendFilesEmpty none
        (PipelineResult.completed 1 "o" "e")).2.errorMessage ∧
    (processData demoBackendFilesEmpty none PipelineResult.timedOut).1 =
      none := by
  exact c6_timeout_distinct_condition demoBackendFilesEmpty
    demoBackendFilesEmpty none none 1 "o" "e" (by decide)

/-- C7: when any of the three processed files or the raw file cannot be
read, `load_data` yields the not-loaded cache, and in that state every
read-only serving view returns its fixed "Data not loaded" error
response for every request — no view accesses the missing data. -/
theorem c7_views_tolerate_missing_files (fs : BackendFiles)
    (compile : String → Option (String → Bool))
    (page perPage : Nat) (search : String)
    (h : fileUnreadable fs.standardizedFile = true ∨
         fileUnreadable fs.analyticsFile = true ∨
         fileUnreadable fs.anomaliesFile = true ∨
         fileUnreadable fs.rawFile = true) :
    loadData fs = none ∧
    dashboardStats (loadData fs) = .error "Data not loaded" ∧
    itemsView compile (loadData fs) page perPage search =
      .error "Data not loaded" ∧
    analyticsView (loadData fs) = .error "Data not loaded" ∧
    anomaliesView (loadData fs) = .error "Data not loaded" ∧
    priceTrendsView (loadData fs) = .error "Data not loaded" ∧
    suppliersView (loadData fs) = .error "Data not loaded" ∧
    categoriesView (loadData fs) =
      .error "Data not loaded or categories not available" := by
  have hnone : loadData fs = none := by
    obtain ⟨s, a, an, r⟩ := fs
    cases s <;> cases a <;> cases an <;> cases r <;>
      simp_all [loadData, readCsv, fileUnreadable]
  rw [hnone]
  exact ⟨rfl, rfl, rfl, rfl, rfl, rfl, rfl, rfl⟩

/-- Witness for C7: only the standardized output file is missing. -/
theorem c7_witness :
    loadData demoBackendFilesPartial = none ∧
    itemsView demoReCompile (loadData demoBackendFilesPartial) 1 20 "" =
      .error "Data not loaded" ∧
    analyticsView (loadData demoBackendFilesPartial) =
      .error "Data not loaded" := by
  have h := c7_views_tolerate_missing_files demoBackendFilesPartial
    demoReCompile 1 20 "" (Or.inl (by decide))
  exact ⟨h.1, h.2.2.1, h.2.2.2.1⟩

/-- No cell of a `.replace({np.nan: None})`-processed row is NaN. -/
theorem replaceRow_cell_ne_nan (r : Row) :
    ∀ p ∈ replaceRow r, p.2 ≠ Value.nan := by
  intro p hp
  simp only [replaceRow, List.mem_map] at hp
  obtain ⟨q, _, rfl⟩ := hp
  cases hq : q.2 <;> simp [replaceNanWithNull, hq]

/-- No cell of a `.replace({np.nan: None})`-processed dataframe is
NaN. -/
theorem map_replaceRow_cell_ne_nan (rows : List Row) :
    ∀ r ∈ rows.map replaceRow, ∀ p ∈ r, p.2 ≠ Value.nan := by
  intro r hr
  simp only [List.mem_map] at hr
  obtain ⟨r0, _, rfl⟩ := hr
  exact replaceRow_cell_ne_nan r0

/-- C8: the items, analytics and anomalies views serve records through
`.replace({np.nan: None})`: the analytics and anomalies payloads are the
cell-wise replaced rows, no served cell is ever NaN, and the replacement
maps exactly the NaN cells to null, leaving all other values
unchanged. -/
theorem c8_served_nan_rendered_null
    (compile : String → Option (String → Bool)) (sd : ServedData)
    (page perPage : Nat) (search : String) :
    (∀ resp, getItems compile sd.standardized.rows page perPage search =
        .ok resp →
      ∀ r ∈ resp.items, ∀ p ∈ r, p.2 ≠ Value.nan) ∧
    (analyticsView (some sd) = .ok (sd.analytics.rows.map replaceRow) ∧
      ∀ r ∈ sd.analytics.rows.map replaceRow, ∀ p ∈ r,
        p.2 ≠ Value.nan) ∧
    (anomaliesView (some sd) = .ok (sd.anomalies.rows.map replaceRow) ∧
      ∀ r ∈ sd.anomalies.rows.map replaceRow, ∀ p ∈ r,
        p.2 ≠ Value.nan) ∧
    (∀ v, replaceNanWithNull v =
      if v = Value.nan then Value.null else v) := by
  refine ⟨?_,
    ⟨rfl, map_replaceRow_cell_ne_nan _⟩,
    ⟨rfl, map_replaceRow_cell_ne_nan _⟩, ?_⟩
  · intro resp h
    rcases hsf : searchFilter compile search sd.standardized.rows with
      e | filtered
    · rw [getItems.eq_def, hsf] at h
      cases h
    · rw [getItems.eq_def, hsf] at h
      simp only [Except.ok.injEq] at h
      subst h
      exact map_replaceRow_cell_ne_nan _
  · intro v
    cases v <;> simp [replaceNanWithNull]

/-- Witness for C8: a concrete served row whose NaN cell arrives as
null. -/
theorem c8_witness :
    (("unit_price", Value.null) : String × Value).2 ≠ Value.nan := by
  have h := (c8_served_nan_rendered_null demoReCompile demoServedData
    1 20 "").1 (paginateItems demoNanDf.rows 1 20) rfl
  exact h [("po_id", Value.str "PO1"), ("unit_price", Value.null)]
    (by decide) ("unit_price", Value.null) (by decide)

/-- C9 counterexample: the claim asserts that every items request with
page ≥ 1 and per_page ≥ 1 gets an items list back — empty when the page
is past the end — rather than an error.  At the concrete request
page = 2, per_page = 1, search = "(" — a pattern on which `re.compile`
raises `re.error` (missing ), unterminated subpattern) — `get_items`
produces no items response at all: the exception escapes the handler
and the request fails with 500 Internal Server Error, for every
page. -/
theorem c9_counterexample :
    demoReCompile "(" = none ∧
    getItems demoReCompile demoNanDf.rows 2 1 "(" =
      .error "Internal Server Error" ∧
    (getItems demoReCompile demoNanDf.rows 2 1 "(").toOption = none := by
  exact ⟨rfl, rfl, rfl⟩

/-- C9 (amended): for every items request with page ≥ 1 and
per_page ≥ 1 whose search stage succeeds — an empty search, or a search
whose pattern the regex engine compiles — the items view returns the
pagination of the filtered rows: at most per_page records, namely the
slice of the filtered dataset from index (page−1)·per_page of length
per_page after NaN-to-null replacement; the reported total is the
filtered dataset's size, independent of page; the reported page count
is ⌈total / per_page⌉; and a page past the end yields an empty items
list.  An empty search leaves the rows unfiltered, a compiled pattern
filters them by the match predicate over canonical_item_name and
supplier_name, and a search whose pattern fails to compile makes the
request fail with 500 Internal Server Error instead of an items
list. -/
theorem c9_items_pagination (compile : String → Option (String → Bool))
    (rows : List Row) (page perPage : Nat) (search : String)
    (h1 : 1 ≤ page) (h2 : 1 ≤ perPage) :
    (∀ filtered, searchFilter compile search rows = .ok filtered →
      getItems compile rows page perPage search =
        .ok (paginateItems filtered page perPage) ∧
      (paginateItems filtered page perPage).items.length ≤ perPage ∧
      (paginateItems filtered page perPage).items =
        ((filtered.drop ((page - 1) * perPage)).take perPage).map
          replaceRow ∧
      (paginateItems filtered page perPage).total = filtered.length ∧
      (paginateItems filtered page perPage).pages =
        filtered.length ⌈/⌉ perPage ∧
      (filtered.length ≤ (page - 1) * perPage →
        (paginateItems filtered page perPage).items = [])) ∧
    (search = "" → searchFilter compile search rows = .ok rows) ∧
    (∀ m, search ≠ "" → compile search = some m →
      searchFilter compile search rows =
        .ok (rows.filter (rowMatches m))) ∧
    (search ≠ "" → compile search = none →
      getItems compile rows page perPage search =
        .error "Internal Server Error") := by
  refine ⟨?_, ?_, ?_, ?_⟩
  · intro filtered hsf
    refine ⟨?_, ?_, rfl, rfl, ?_, ?_⟩
    · rw [getItems.eq_def, hsf]
    · simp only [paginateItems, List.length_map, List.length_take]
      exact min_le_left _ _
    · simp only [paginateItems]
      rw [Nat.ceilDiv_eq_add_pred_div]
    · intro hle
      simp only [paginateItems]
      rw [List.drop_eq_nil_of_le hle]
      simp
  · intro hs
    simp [searchFilter, hs]
  · intro m hs hm
    simp [searchFilter, hs, hm]
  · intro hs hm
    simp [getItems, searchFilter, hs, hm]

/-- Witness for C9: with the demonstration engine, an empty search over
a one-row dataset at page 3 with per_page 2 is past the end and comes
back as an empty items list inside a normal items response. -/
theorem c9_witness :
    getItems demoReCompile demoNanDf.rows 3 2 "" =
      .ok (paginateItems demoNanDf.rows 3 2) ∧
    (paginateItems demoNanDf.rows 3 2).items = [] := by
  have h := c9_items_pagination demoReCompile demoNanDf.rows 3 2 ""
    (by decide) (by decide)
  have hf := h.2.1 rfl
  have h1 := h.1 demoNanDf.rows hf
  exact ⟨h1.1, h1.2.2.2.2.2 (by decide)⟩

/-- C10: when the anomalies file is absent or zero-byte, the frontend
loader substitutes an empty anomalies dataframe with exactly the six
documented columns and succeeds, while an unreadable raw, standardized
or analytics file makes the whole load fail. -/
theorem c10_frontend_anomalies_fallback (rdf sdf adf : Df)
    (s a an : CsvFile) :
    frontendLoadData ⟨CsvFile.content rdf, CsvFile.content sdf,
        CsvFile.content adf, CsvFile.absent⟩ =
      .ok (rdf, sdf, adf, ⟨anomalyFallbackCols, []⟩) ∧
    frontendLoadData ⟨CsvFile.content rdf, CsvFile.content sdf,
        CsvFile.content adf, CsvFile.emptyFile⟩ =
      .ok (rdf, sdf, adf, ⟨anomalyFallbackCols, []⟩) ∧
    anomalyFallbackCols = ["po_id", "item_code", "unit_price",
      "expected_price", "anomaly_flag", "anomaly_reason"] ∧
    (frontendLoadData ⟨CsvFile.absent, s, a, an⟩).toOption = none ∧
    (frontendLoadData ⟨CsvFile.content rdf, CsvFile.absent, a,
      an⟩).toOption = none ∧
    (frontendLoadData ⟨CsvFile.content rdf, CsvFile.content sdf,
      CsvFile.absent, an⟩).toOption = none := by
  exact ⟨rfl, rfl, rfl, rfl, rfl, rfl⟩

end HPPowerLab
